import Mathlib

/-!
Verification development for the Q_Solver quiz-solving service.

The embedding below translates the core of the repository into Lean:

* `run_script` (src/app/script_runner.py): execution of generated code in a
  child process, with the captured outcome supplied as an oracle value of
  type `ExecOutcome` (the child process itself, the OS and the JSON parser
  of the standard library are external; their observable results are the
  oracle fields).  `run_script_fs` additionally threads an explicit
  file-system state to model the temporary-file lifecycle.
* the answer pipeline of src/app/solver.py:
  `normalise_answer_from_envelope`, `make_answer_json_safe`, and the
  envelope classification performed by `solve_quiz` (lines 224-306).
* the submit-URL recovery of `_extract_question_and_submit_url`
  (src/app/solver.py lines 47-87).
* the decision step of `solve_quiz` after a submission (lines 308-335),
  and the whole solve loop as `solve_quiz_loop`, a fuel-bounded function
  over an oracle environment `SolveEnv` describing the external
  collaborators (page renderer, code generator, child process, network).

Python values flowing through the program are modelled by `PyVal`;
numeric values are modelled as rationals; timestamps (Python floats
compared against fixed offsets from the deadline) as integers, which
preserves every ordering fact the claims state.
-/

/-- Model of the Python values the solver manipulates: results of
`json.loads`, answers, payload fields.  Numbers are modelled as rationals
(Python ints and floats); dictionaries as association lists with string
keys, which is the shape every dictionary in this code has. -/
inductive PyVal where
  | null
  | bool (b : Bool)
  | num (q : Rat)
  | str (s : String)
  | bytes (bs : List Nat)
  | list (xs : List PyVal)
  | dict (kvs : List (String × PyVal))

/-- First binding of a key in an association list, mirroring Python
dictionary lookup (keys produced by `json.loads` are unique). -/
def dictGet (kvs : List (String × PyVal)) (k : String) : Option PyVal :=
  match kvs with
  | [] => Option.none
  | (k2, v) :: rest => if k2 = k then some v else dictGet rest k

/-- Python `k in d`. -/
def dictContains (kvs : List (String × PyVal)) (k : String) : Bool :=
  (dictGet kvs k).isSome

/-- Python `d.get(k, default)`; with default `PyVal.null` this is `d.get(k)`. -/
def dictGetD (kvs : List (String × PyVal)) (k : String) (d : PyVal) : PyVal :=
  (dictGet kvs k).getD d

/-- Key lookup with default on an arbitrary value: the default when the
value is not a dictionary. -/
def envGetD (v : PyVal) (k : String) (d : PyVal) : PyVal :=
  match v with
  | .dict kvs => dictGetD kvs k d
  | _ => d

/-- Whether a value is a dictionary containing the key. -/
def envContainsKey (v : PyVal) (k : String) : Bool :=
  match v with
  | .dict kvs => dictContains kvs k
  | _ => false

/-- Python truthiness of the modelled values. -/
def pyTruthy : PyVal → Bool
  | .null => false
  | .bool b => b
  | .num q => !(q == 0)
  | .str s => !(s == "")
  | .bytes bs => !bs.isEmpty
  | .list xs => !xs.isEmpty
  | .dict kvs => !kvs.isEmpty

/-- Python `x is True`: true exactly for the boolean `True`. -/
def pyIsTrueIdent : PyVal → Bool
  | .bool true => true
  | _ => false

/-- Python `x is None`. -/
def pyIsNone : PyVal → Bool
  | .null => true
  | _ => false

/-- The characters Python `str.strip()` removes. -/
def pySpaceChar (c : Char) : Bool :=
  [32, 9, 10, 13, 11, 12].contains c.toNat

/-- Python `s.strip()` (ASCII whitespace; the Unicode whitespace Python
additionally strips does not occur in this code's strings). -/
def pyStrip (s : String) : String :=
  String.mk (((s.toList.dropWhile pySpaceChar).reverse.dropWhile pySpaceChar).reverse)

/-- Exit status, captured output and parsed response envelope of one
child-process run: the `ExecutionResult` dictionary `run_script` returns
(src/app/script_runner.py lines 9-18). -/
structure ExecutionResult where
  returncode : Int
  stdout : String
  stderr : String
  response : PyVal

/-- Oracle describing what the OS and the JSON parser did for one call of
`run_script`: the subprocess timed out, failed to launch, or completed
with the given exit status and captured streams.  `parsed` is the result
of `json.loads` applied to the stripped stdout (`Option.none` when that
call raises `JSONDecodeError`); it is consulted only when the stripped
stdout is non-empty, exactly as in the source. -/
inductive ExecOutcome where
  | timeout (msg : String)
  | launchFailure (msg : String)
  | completed (returncode : Int) (stdout stderr : String) (parsed : Option PyVal)

/-- Lines 98-100 of src/app/script_runner.py: make sure the response
envelope has an `answer` key, adding `answer = None` at the end otherwise
(Python dictionary assignment appends a fresh key). -/
def ensureAnswer (kvs : List (String × PyVal)) : List (String × PyVal) :=
  if dictContains kvs "answer" then kvs else kvs ++ [("answer", PyVal.null)]

/-- src/app/script_runner.py, `run_script` (lines 9-107): build the
`ExecutionResult` from the child-process outcome.  The temporary-file
handling is modelled separately by `run_script_fs`. -/
def run_script (o : ExecOutcome) : ExecutionResult :=
  match o with
  | .timeout msg =>
      { returncode := -1
        stdout := ""
        stderr := "TimeoutExpired: " ++ msg
        response := PyVal.dict [("answer", PyVal.null), ("error", PyVal.str "Timeout")] }
  | .launchFailure msg =>
      { returncode := -1
        stdout := ""
        stderr := "Script execution error: " ++ msg
        response := PyVal.dict [("answer", PyVal.null), ("error", PyVal.str msg)] }
  | .completed rc out err parsed0 =>
      let stdout := pyStrip out
      let stderr := pyStrip err
      let parsed : List (String × PyVal) :=
        if stdout = "" then []
        else
          match parsed0 with
          | some (PyVal.dict kvs) => kvs
          | some v => [("answer", v)]
          | Option.none =>
              if rc = 0 then [("answer", PyVal.str stdout)]
              else
                [("answer", PyVal.null),
                 ("error", PyVal.str
                    (if stderr = "" then
                       (if stdout = "" then "Script produced no usable output" else stdout)
                     else stderr))]
      { returncode := rc
        stdout := stdout
        stderr := stderr
        response := PyVal.dict (ensureAnswer parsed) }

/-- `if os.path.exists(p): os.remove(p)` on a file-system state modelled
as the list of existing paths. -/
def removeIfExists (fs : List String) (p : String) : List String :=
  if fs.contains p then fs.filter (fun q => !(q == p)) else fs

/-- `run_script` with the temporary-file effect made explicit: `path` is
the fresh name `tempfile.NamedTemporaryFile` chose, `fs0` the file system
before the call.  The file is created up front (lines 20-27); on timeout
and on launch failure the handler removes it (lines 51-52 and 67-68) and
the `finally` block runs again before the `return` (lines 75-80, a no-op
then); on normal completion only the `finally` block removes it. -/
def run_script_fs (fs0 : List String) (path : String) (o : ExecOutcome) :
    ExecutionResult × List String :=
  let fs1 := path :: fs0
  match o with
  | .timeout _ => (run_script o, removeIfExists (removeIfExists fs1 path) path)
  | .launchFailure _ => (run_script o, removeIfExists (removeIfExists fs1 path) path)
  | .completed _ _ _ _ => (run_script o, removeIfExists fs1 path)

/-- src/app/solver.py lines 93-121, `_normalise_answer_from_envelope`:
pull an answer value out of the envelope: the `answer` key first, then
the fallback keys in their fixed order, then a nested `answer` one level
down; `PyVal.null` models the Python `None` returned when nothing
matches (and also the value of an explicit `answer: null`, exactly as in
Python where the two are the same object). -/
def findFallbackKey (env : List (String × PyVal)) : List String → Option PyVal
  | [] => Option.none
  | k :: ks =>
      if dictContains env k then some (dictGetD env k PyVal.null)
      else findFallbackKey env ks

/-- Lines 112-119 of src/app/solver.py: the first dictionary value of the
envelope that itself contains an `answer` key. -/
def findNestedAnswer : List (String × PyVal) → Option PyVal
  | [] => Option.none
  | (_, PyVal.dict inner) :: rest =>
      if dictContains inner "answer" then some (dictGetD inner "answer" PyVal.null)
      else findNestedAnswer rest
  | _ :: rest => findNestedAnswer rest

def normalise_answer_from_envelope (envelope : List (String × PyVal)) : PyVal :=
  if dictContains envelope "answer" then dictGetD envelope "answer" PyVal.null
  else
    match findFallbackKey envelope ["result", "value", "output", "answer_value", "data"] with
    | some v => v
    | Option.none =>
        match findNestedAnswer envelope with
        | some v => v
        | Option.none => PyVal.null

/-- One hexadecimal digit, lower case. -/
def hexDigit (n : Nat) : Char :=
  if n < 10 then Char.ofNat (48 + n) else Char.ofNat (87 + n)

/-- Four-digit hexadecimal rendering used by JSON \u escapes. -/
def hex4 (n : Nat) : String :=
  String.mk [hexDigit (n / 4096 % 16), hexDigit (n / 256 % 16),
             hexDigit (n / 16 % 16), hexDigit (n % 16)]

/-- How Python `json.dumps` (default `ensure_ascii=True`) renders one
character inside a string literal. -/
def escapeJsonChar (c : Char) : String :=
  let n := c.toNat
  if n = 34 then "\\" ++ String.singleton (Char.ofNat 34)
  else if n = 92 then "\\\\"
  else if n = 10 then "\\n"
  else if n = 9 then "\\t"
  else if n = 13 then "\\r"
  else if n = 8 then "\\b"
  else if n = 12 then "\\f"
  else if n < 32 then "\\u" ++ hex4 n
  else if n < 127 then String.singleton c
  else if n < 65536 then "\\u" ++ hex4 n
  else
    "\\u" ++ hex4 (55296 + (n - 65536) / 1024) ++ "\\u" ++ hex4 (56320 + (n - 65536) % 1024)

/-- JSON string literal for `s`. -/
def jsonQuote (s : String) : String :=
  String.singleton (Char.ofNat 34)
    ++ String.join (s.toList.map escapeJsonChar)
    ++ String.singleton (Char.ofNat 34)

/-- Rendering of a numeric value: integers as Python would print them;
non-integral rationals (which never occur in the claims) are rendered as
a fraction. -/
def numRepr (q : Rat) : String :=
  if q.den = 1 then toString q.num else toString q.num ++ "/" ++ toString q.den

/-- Comma-separated join, the compact separator `","` of the source. -/
def joinComma : List String → String
  | [] => ""
  | [s] => s
  | s :: rest => s ++ "," ++ joinComma rest

mutual

/-- Model of `json.dumps(v, separators=(",", ":"))`: `Option.none` models
the `TypeError` raised on a value JSON cannot serialize, which among the
modelled values is exactly a (nested) bytes value. -/
def jsonDumps : PyVal → Option String
  | PyVal.null => some "null"
  | PyVal.bool true => some "true"
  | PyVal.bool false => some "false"
  | PyVal.num q => some (numRepr q)
  | PyVal.str s => some (jsonQuote s)
  | PyVal.bytes _ => Option.none
  | PyVal.list xs =>
      match jsonDumpsItems xs with
      | some parts => some ("[" ++ joinComma parts ++ "]")
      | Option.none => Option.none
  | PyVal.dict kvs =>
      match jsonDumpsPairs kvs with
      | some parts => some ("\x7b" ++ joinComma parts ++ "\x7d")
      | Option.none => Option.none

/-- Serialization of the items of a list, failing if any item fails. -/
def jsonDumpsItems : List PyVal → Option (List String)
  | [] => some []
  | v :: vs =>
      match jsonDumps v, jsonDumpsItems vs with
      | some s, some rest => some (s :: rest)
      | _, _ => Option.none

/-- Serialization of the pairs of a dictionary, failing if any value fails. -/
def jsonDumpsPairs : List (String × PyVal) → Option (List String)
  | [] => some []
  | (k, v) :: kvs =>
      match jsonDumps v, jsonDumpsPairs kvs with
      | some s, some rest => some ((jsonQuote k ++ ":" ++ s) :: rest)
      | _, _ => Option.none

end

/-- A single quote character, used by the Python `str()` renderings. -/
def singleQuote : String := String.singleton (Char.ofNat 39)

/-- `", "`-separated join, the separator of Python container repr. -/
def joinCommaSpace : List String → String
  | [] => ""
  | [s] => s
  | s :: rest => s ++ ", " ++ joinCommaSpace rest

mutual

/-- Model of Python `str(v)` for the values at hand (the fallback the
source uses when `json.dumps` raises, src/app/solver.py lines 136-138).
String escaping inside `repr` is not reproduced; only the overall shape
matters to the solver, which treats the result as an opaque string. -/
def pyRepr : PyVal → String
  | PyVal.null => "None"
  | PyVal.bool true => "True"
  | PyVal.bool false => "False"
  | PyVal.num q => numRepr q
  | PyVal.str s => singleQuote ++ s ++ singleQuote
  | PyVal.bytes bs => "b" ++ singleQuote ++ String.mk (bs.map Char.ofNat) ++ singleQuote
  | PyVal.list xs => "[" ++ joinCommaSpace (pyReprItems xs) ++ "]"
  | PyVal.dict kvs => "\x7b" ++ joinCommaSpace (pyReprPairs kvs) ++ "\x7d"

def pyReprItems : List PyVal → List String
  | [] => []
  | v :: vs => pyRepr v :: pyReprItems vs

def pyReprPairs : List (String × PyVal) → List String
  | [] => []
  | (k, v) :: kvs => (singleQuote ++ k ++ singleQuote ++ ": " ++ pyRepr v) :: pyReprPairs kvs

end

/-- A UTF-8 continuation byte. -/
def contByte (b : Nat) : Bool := 128 ≤ b && b ≤ 191

/-- Valid second byte of a three-byte UTF-8 sequence with lead byte `b`. -/
def secondByteOk3 (b b2 : Nat) : Bool :=
  if b = 224 then 160 ≤ b2 && b2 ≤ 191
  else if b = 237 then 128 ≤ b2 && b2 ≤ 159
  else contByte b2

/-- Valid second byte of a four-byte UTF-8 sequence with lead byte `b`. -/
def secondByteOk4 (b b2 : Nat) : Bool :=
  if b = 240 then 144 ≤ b2 && b2 ≤ 191
  else if b = 244 then 128 ≤ b2 && b2 ≤ 143
  else contByte b2

/-- Worker for `decodeUtf8Ignore`; `fuel` only bounds the recursion and
is instantiated with the input length, which every recursive call
strictly undercuts because at least one byte is consumed per step. -/
def decodeUtf8IgnoreAux : Nat → List Nat → List Char
  | 0, _ => []
  | _, [] => []
  | fuel + 1, b :: rest =>
      if b < 128 then Char.ofNat b :: decodeUtf8IgnoreAux fuel rest
      else if 194 ≤ b && b ≤ 223 then
        match rest with
        | [] => []
        | b2 :: rest2 =>
            if contByte b2 then
              Char.ofNat ((b - 192) * 64 + (b2 - 128)) :: decodeUtf8IgnoreAux fuel rest2
            else decodeUtf8IgnoreAux fuel rest
      else if 224 ≤ b && b ≤ 239 then
        match rest with
        | [] => []
        | b2 :: rest2 =>
            if secondByteOk3 b b2 then
              match rest2 with
              | [] => []
              | b3 :: rest3 =>
                  if contByte b3 then
                    Char.ofNat ((b - 224) * 4096 + (b2 - 128) * 64 + (b3 - 128))
                      :: decodeUtf8IgnoreAux fuel rest3
                  else decodeUtf8IgnoreAux fuel rest2
            else decodeUtf8IgnoreAux fuel rest
      else if 240 ≤ b && b ≤ 244 then
        match rest with
        | [] => []
        | b2 :: rest2 =>
            if secondByteOk4 b b2 then
              match rest2 with
              | [] => []
              | b3 :: rest3 =>
                  if contByte b3 then
                    match rest3 with
                    | [] => []
                    | b4 :: rest4 =>
                        if contByte b4 then
                          Char.ofNat ((b - 240) * 262144 + (b2 - 128) * 4096
                              + (b3 - 128) * 64 + (b4 - 128))
                            :: decodeUtf8IgnoreAux fuel rest4
                        else decodeUtf8IgnoreAux fuel rest3
                  else decodeUtf8IgnoreAux fuel rest2
            else decodeUtf8IgnoreAux fuel rest
      else decodeUtf8IgnoreAux fuel rest

/-- Model of Python `bytes.decode("utf-8", errors="ignore")`: decode
UTF-8, dropping invalid bytes and resuming at the byte that broke a
sequence, and dropping a sequence truncated at the end of the input. -/
def decodeUtf8Ignore (bs : List Nat) : List Char :=
  decodeUtf8IgnoreAux bs.length bs

/-- src/app/solver.py lines 124-145, `_make_answer_json_safe`: a
dictionary or list becomes its compact JSON serialization (falling back
to `str(answer)` if serialization raises); bytes are decoded as UTF-8
with invalid sequences dropped; every other value passes through
unchanged. -/
def make_answer_json_safe (answer : PyVal) : PyVal :=
  match answer with
  | PyVal.dict _ =>
      match jsonDumps answer with
      | some s => PyVal.str s
      | Option.none => PyVal.str (pyRepr answer)
  | PyVal.list _ =>
      match jsonDumps answer with
      | some s => PyVal.str s
      | Option.none => PyVal.str (pyRepr answer)
  | PyVal.bytes bs => PyVal.str (String.mk (decodeUtf8Ignore bs))
  | v => v

/-- Characters the regex `https?://[^\s"<>]+` (with a quote and a single
quote in the character class) stops at: ASCII whitespace, double quote,
single quote, and angle brackets. -/
def urlBreakChar (c : Char) : Bool :=
  [32, 9, 10, 13, 11, 12, 34, 39, 60, 62].contains c.toNat

def httpsChars : List Char := "https://".toList

def httpChars : List Char := "http://".toList

/-- One attempted regex match at the current position: the literal
alternation `https?://` followed by a non-empty greedy run of
non-breaking characters.  Returns the matched text and the remaining
input. -/
def matchUrlAt (cs : List Char) : Option (String × List Char) :=
  if httpsChars.isPrefixOf cs then
    let after := cs.drop httpsChars.length
    let run := after.takeWhile (fun c => !urlBreakChar c)
    if run.isEmpty then Option.none
    else some (String.mk (httpsChars ++ run), after.drop run.length)
  else if httpChars.isPrefixOf cs then
    let after := cs.drop httpChars.length
    let run := after.takeWhile (fun c => !urlBreakChar c)
    if run.isEmpty then Option.none
    else some (String.mk (httpChars ++ run), after.drop run.length)
  else Option.none

/-- Left-to-right non-overlapping scan of `re.findall` for the URL
pattern; `fuel` bounds the scan and is instantiated with the input
length (every step consumes at least one character). -/
def findUrlsAux : Nat → List Char → List String
  | 0, _ => []
  | _, [] => []
  | fuel + 1, c :: rest =>
      match matchUrlAt (c :: rest) with
      | some (url, rest2) => url :: findUrlsAux fuel rest2
      | Option.none => findUrlsAux fuel rest

/-- `re.findall(r"https?://[^\s...]+", html)` of src/app/solver.py
line 48. -/
def findUrls (html : String) : List String :=
  findUrlsAux html.length html.toList

/-- Python `s.rstrip(").,;")` as used on lines 50 and 58. -/
def rstripJunk (s : String) : String :=
  String.mk ((s.toList.reverse.dropWhile (fun c => [41, 44, 46, 59].contains c.toNat)).reverse)

/-- ASCII lower-casing, Python `s.lower()` for the strings at hand. -/
def strLower (s : String) : String :=
  String.mk (s.toList.map Char.toLower)

/-- Python `s.startswith(needle)`. -/
def strStartsWith (s needle : String) : Bool :=
  needle.toList.isPrefixOf s.toList

/-- Python `s.endswith(needle)`. -/
def strEndsWith (s needle : String) : Bool :=
  needle.toList.reverse.isPrefixOf s.toList.reverse

/-- Whether `needle` occurs inside `hay`, Python `needle in hay` on
strings. -/
def listContainsInfix (needle hay : List Char) : Bool :=
  match hay with
  | [] => needle.isEmpty
  | _ :: t => needle.isPrefixOf hay || listContainsInfix needle t

def strContainsInfix (hay needle : String) : Bool :=
  listContainsInfix needle.toList hay.toList

/-- The static-asset extensions dropped on lines 52-62. -/
def assetExts : List String :=
  [".js", ".css", ".png", ".jpg", ".jpeg", ".gif", ".ico", ".svg", ".map"]

/-- Lines 57-64 of src/app/solver.py: right-strip the found URLs, drop the
quiz URL itself and static assets, and deduplicate preserving order. -/
def cleaned_urls (html quiz_url : String) : List String :=
  let stripped := rstripJunk quiz_url
  (findUrls html).foldl
    (fun acc u =>
      let uc := rstripJunk u
      if uc = stripped then acc
      else if assetExts.any (fun ext => strEndsWith (strLower uc) ext) then acc
      else if acc.contains uc then acc
      else acc ++ [uc])
    []

/-- Scheme, authority and path of a parsed URL; the components
`f"{scheme}://{netloc}/submit"` consumes. -/
structure UrlParts where
  scheme : String
  netloc : String
  path : String

/-- Whether a list of characters is a valid `urllib` scheme: a letter
followed by letters, digits, `+`, `-` or `.`. -/
def validSchemeChars : List Char → Bool
  | [] => false
  | c :: rest =>
      c.isAlpha && rest.all (fun d => d.isAlphanum || [43, 45, 46].contains d.toNat)

/-- Split a character list at the first colon. -/
def splitAtColon (cs : List Char) : Option (List Char × List Char) :=
  match cs with
  | [] => Option.none
  | c :: rest =>
      if c = Char.ofNat 58 then some ([], rest)
      else
        match splitAtColon rest with
        | some (pre, post) => some (c :: pre, post)
        | Option.none => Option.none

/-- Model of `urllib.parse.urlparse` restricted to the components this
program reads (scheme, netloc, path).  The split of path parameters
after `;` and of query and fragment inside the path is not reproduced
beyond cutting the path at `?` and `#`, which is all the source relies
on. -/
def urlparse_model (u : String) : UrlParts :=
  let cs := u.toList
  let (scheme, rest) :=
    match splitAtColon cs with
    | some (pre, post) =>
        if validSchemeChars pre then (String.mk (pre.map Char.toLower), post)
        else ("", cs)
    | Option.none => ("", cs)
  if "//".toList.isPrefixOf rest then
    let afterSlashes := rest.drop 2
    let netloc := afterSlashes.takeWhile (fun c => !([47, 63, 35].contains c.toNat))
    let afterNetloc := afterSlashes.drop netloc.length
    let path := afterNetloc.takeWhile (fun c => !([63, 35].contains c.toNat))
    ⟨scheme, String.mk netloc, String.mk path⟩
  else
    let path := rest.takeWhile (fun c => !([63, 35].contains c.toNat))
    ⟨scheme, "", String.mk path⟩

/-- Lines 68-73 of src/app/solver.py: the candidate the solver settles
on, when any URL survived cleaning: the first URL containing a
submission keyword, else the first survivor. -/
def chosen_candidate (html quiz_url : String) : Option String :=
  match cleaned_urls html quiz_url with
  | [] => Option.none
  | c :: cs =>
      let preferred := (c :: cs).filter
        (fun u => ["submit", "answer", "quiz"].any (fun key => strContainsInfix (strLower u) key))
      some (match preferred with
            | p :: _ => p
            | [] => c)

/-- Lines 68-87 of src/app/solver.py: the submit URL
`_extract_question_and_submit_url` returns (the question-context half of
that function feeds an external HTML parser and is not needed by any
claim). -/
def extract_submit_url (html quiz_url : String) : String :=
  match chosen_candidate html quiz_url with
  | some cand =>
      let pc := urlparse_model cand
      if pc.path = "" || pc.path = "/" then pc.scheme ++ "://" ++ pc.netloc ++ "/submit"
      else cand
  | Option.none =>
      let p := urlparse_model quiz_url
      p.scheme ++ "://" ++ p.netloc ++ "/submit"

/-- Lines 252-259 of src/app/solver.py: the script may override the
submit URL: `envelope.get("submit_url") or envelope.get("submission_url")`,
taken only when the winner is a string starting with `http`. -/
def override_submit_url (kvs : List (String × PyVal)) (submit_url : String) : String :=
  let first := dictGetD kvs "submit_url" PyVal.null
  let winner := if pyTruthy first then first else dictGetD kvs "submission_url" PyVal.null
  match winner with
  | PyVal.str s => if strStartsWith s "http" then s else submit_url
  | _ => submit_url

/-- What one loop iteration of `solve_quiz` decides to do with the
response envelope of the executed script (lines 224-263 of
src/app/solver.py): a non-dictionary response aborts; an envelope with
both a `correct` and a `url` key is taken as the server response itself;
anything else is normalised into an answer to submit. -/
inductive EnvelopeAction where
  | invalidEnvelope
  | selfSubmitted (submission : List (String × PyVal))
  | submitAnswer (submit_url : String) (answer : PyVal)

/-- Lines 224-263 of src/app/solver.py, as a function of the envelope
and the fallback submit URL from the page. -/
def classify_envelope (response : PyVal) (submit_url : String) : EnvelopeAction :=
  match response with
  | PyVal.dict kvs =>
      if dictContains kvs "correct" && dictContains kvs "url" then
        EnvelopeAction.selfSubmitted kvs
      else
        let answer0 := normalise_answer_from_envelope kvs
        let answer1 := if pyIsNone answer0 then PyVal.str "" else answer0
        EnvelopeAction.submitAnswer (override_submit_url kvs submit_url)
          (make_answer_json_safe answer1)
  | _ => EnvelopeAction.invalidEnvelope

/-- What the loop does after a submission outcome is known. -/
inductive LoopDecision where
  | continueWith (url : String)
  | stop

/-- Lines 308-335 of src/app/solver.py: handle the server response.  If
`correct` is the boolean `True` and a non-empty string `url` is present,
follow it; with `correct` true and no next URL the chain is complete.
Otherwise follow a non-empty string `url` only when the current time is
still more than sixty seconds before the deadline.  `now` is the value
`time.time()` would return at the check on line 326 (the correct-branch
performs no time call and ignores it). -/
def handle_submission (submission : List (String × PyVal)) (now deadline_ts : Int) :
    LoopDecision :=
  let correct := dictGetD submission "correct" PyVal.null
  let next_url := dictGetD submission "url" PyVal.null
  if pyIsTrueIdent correct then
    match next_url with
    | PyVal.str s => if s ≠ "" then LoopDecision.continueWith s else LoopDecision.stop
    | _ => LoopDecision.stop
  else
    match next_url with
    | PyVal.str s =>
        if s ≠ "" ∧ now < deadline_ts - 60 then LoopDecision.continueWith s
        else LoopDecision.stop
    | _ => LoopDecision.stop

/-- The network calls a session performs, in order: page renders and
submission POSTs.  (The code-generation call is not a recorded event; no
claim mentions it separately from the render that precedes it.) -/
inductive Event where
  | renderCall (url : String)
  | postCall (submit_url : String) (payload : List (String × PyVal))

/-- How a session ends.  `done` covers the normal exits of the loop
(guard false, chain complete, incorrect answer not followed); `aborted`
the `break`s taken on collaborator failure or malformed data; `crashed`
the one unhandled path (a submission endpoint answering with JSON that
is not an object, making `submission.get` on line 309 raise);
`outOfFuel` only bounds the model recursion. -/
inductive Final where
  | done
  | aborted
  | crashed
  | outOfFuel

/-- Oracle environment for one session: the externally observable
behaviour of the collaborators `solve_quiz` drives.  `render` and
`generate` return `Option.none` when the call raises; `extract` stands
for `_extract_question_and_submit_url` whose HTML-parsing half lives in
an external library (its URL half is modelled by `extract_submit_url`);
`exec` is the `ExecutionResult` of `run_script`; `post` returns
`Option.none` on a network exception and otherwise the status code, the
body text and the JSON value of `resp.json()` (`Option.none` for that
component when the body is not JSON); `time` lists the successive values
`time.time()` returns. -/
structure SolveEnv where
  render : String → Option String
  extract : String → String → Option (String × String)
  generate : String → String → String → Option String
  exec : String → ExecutionResult
  post : String → List (String × PyVal) → Option (Int × String × Option PyVal)
  time : Nat → Int

/-- The synthesized negative submission of lines 290-298 of
src/app/solver.py, produced when the submit endpoint returns a non-JSON
body. -/
def nonJsonSubmission (status : Int) (raw_text : String) : List (String × PyVal) :=
  [("correct", PyVal.bool false),
   ("url", PyVal.null),
   ("reason", PyVal.str ("Non-JSON response from submit endpoint (status="
      ++ toString status ++ "): " ++ String.mk (raw_text.toList.take 200)))]

/-- The `while` loop of `solve_quiz` (src/app/solver.py lines 168-335),
returning the network events it performed and how it ended.  `fuel`
bounds the number of iterations of the model only; `k` counts the
`time.time()` calls made so far, so `env.time k` is the guard check of
the current iteration and `env.time (k+1)` the check on line 326 when
that branch runs. -/
def solve_quiz_loop (env : SolveEnv) (email secret : String) (deadline_ts : Int) :
    Nat → Nat → Option String → List Event × Final
  | 0, _, _ => ([], Final.outOfFuel)
  | _ + 1, _, Option.none => ([], Final.done)
  | fuel + 1, k, some url =>
      if url = "" then ([], Final.done)
      else if ¬ (env.time k < deadline_ts - 30) then ([], Final.done)
      else
        match env.render url with
        | Option.none => ([Event.renderCall url], Final.aborted)
        | some html =>
            match env.extract html url with
            | Option.none => ([Event.renderCall url], Final.aborted)
            | some (ctx, submit_url0) =>
                match env.generate ctx url submit_url0 with
                | Option.none => ([Event.renderCall url], Final.aborted)
                | some code =>
                    let result := env.exec code
                    let step : List Event × (Final ⊕ List (String × PyVal)) :=
                      match classify_envelope result.response submit_url0 with
                      | EnvelopeAction.invalidEnvelope =>
                          ([Event.renderCall url], Sum.inl Final.aborted)
                      | EnvelopeAction.selfSubmitted submission =>
                          ([Event.renderCall url], Sum.inr submission)
                      | EnvelopeAction.submitAnswer submit_url answer =>
                          let payload :=
                            [("email", PyVal.str email), ("secret", PyVal.str secret),
                             ("url", PyVal.str url), ("answer", answer)]
                          let ev := [Event.renderCall url, Event.postCall submit_url payload]
                          match env.post submit_url payload with
                          | Option.none => (ev, Sum.inl Final.aborted)
                          | some (status, text, Option.none) =>
                              (ev, Sum.inr (nonJsonSubmission status text))
                          | some (_, _, some (PyVal.dict kvs)) => (ev, Sum.inr kvs)
                          | some (_, _, some _) => (ev, Sum.inl Final.crashed)
                    match step with
                    | (ev, Sum.inl fin) => (ev, fin)
                    | (ev, Sum.inr submission) =>
                        match handle_submission submission (env.time (k + 1)) deadline_ts with
                        | LoopDecision.continueWith next_url =>
                            let k2 :=
                              if pyIsTrueIdent (dictGetD submission "correct" PyVal.null)
                              then k + 1 else k + 2
                            let r := solve_quiz_loop env email secret deadline_ts fuel k2
                                       (some next_url)
                            (ev ++ r.1, r.2)
                        | LoopDecision.stop => (ev, Final.done)

/-- Looking a key up past a prefix that does not bind it. -/
theorem dictGet_append_of_not_contains (kvs kvs2 : List (String × PyVal)) (k : String)
    (h : dictContains kvs k = false) :
    dictGet (kvs ++ kvs2) k = dictGet kvs2 k := by
  induction kvs with
  | nil => rfl
  | cons hd tl ih =>
      obtain ⟨k2, v⟩ := hd
      by_cases hk : k2 = k
      · exfalso
        simp [dictContains, dictGet, hk] at h
      · simp only [dictContains, dictGet, hk, if_false, List.cons_append] at h ⊢
        exact ih h

/-- `ensureAnswer` lives up to its name. -/
theorem dictContains_ensureAnswer (kvs : List (String × PyVal)) :
    dictContains (ensureAnswer kvs) "answer" = true := by
  unfold ensureAnswer
  split
  · next h => exact h
  · next h =>
      simp only [Bool.not_eq_true] at h
      simp only [dictContains, dictGet_append_of_not_contains kvs _ _ h]
      rfl

/-- The value `ensureAnswer` adds when the key was absent. -/
theorem dictGet_ensureAnswer_of_not_contains (kvs : List (String × PyVal))
    (h : dictContains kvs "answer" = false) :
    dictGet (ensureAnswer kvs) "answer" = some PyVal.null := by
  unfold ensureAnswer
  rw [h]
  simp [dictGet_append_of_not_contains kvs _ _ h, dictGet]

/-- C2 (amended): on a child-process timeout `run_script` returns exit
status -1, empty stdout, the `TimeoutExpired` marker in stderr, and the
envelope with `answer` null and `error` the string `"Timeout"` (the
claimed lower-case `"timeout"` is not what the code writes). -/
theorem C2_timeout_envelope (msg : String) :
    run_script (ExecOutcome.timeout msg) =
      { returncode := -1
        stdout := ""
        stderr := "TimeoutExpired: " ++ msg
        response := PyVal.dict [("answer", PyVal.null), ("error", PyVal.str "Timeout")] } := rfl

/-- C2 counterexample: the timeout envelope's `error` value is the
capitalised string `"Timeout"`, not the string `"timeout"` the claim
requires the envelope to equal exactly. -/
theorem C2_timeout_marker_counterexample :
    envGetD (run_script (ExecOutcome.timeout "boom")).response "error" PyVal.null
      = PyVal.str "Timeout"
    ∧ PyVal.str "Timeout" ≠ PyVal.str "timeout" := by
  refine ⟨rfl, fun h => ?_⟩
  injection h with h2
  exact absurd h2 (by decide)

/-- C3: every outcome of `run_script` yields a response envelope that
contains the key `answer`; and in each of the genuinely answer-less
cases (timeout, launch failure, empty stdout, JSON object lacking the
key, unparseable stdout from a failing script) that value is null. -/
theorem C3_envelope_totality (o : ExecOutcome) :
    envContainsKey (run_script o).response "answer" = true
    ∧ (∀ m, o = ExecOutcome.timeout m →
        envGetD (run_script o).response "answer" (PyVal.str "absent") = PyVal.null)
    ∧ (∀ m, o = ExecOutcome.launchFailure m →
        envGetD (run_script o).response "answer" (PyVal.str "absent") = PyVal.null)
    ∧ (∀ rc out err p, o = ExecOutcome.completed rc out err p → pyStrip out = "" →
        (run_script o).response = PyVal.dict [("answer", PyVal.null)])
    ∧ (∀ rc out err kvs, o = ExecOutcome.completed rc out err (some (PyVal.dict kvs)) →
        pyStrip out ≠ "" → dictContains kvs "answer" = false →
        envGetD (run_script o).response "answer" (PyVal.str "absent") = PyVal.null)
    ∧ (∀ rc out err, o = ExecOutcome.completed rc out err Option.none → rc ≠ 0 →
        envGetD (run_script o).response "answer" (PyVal.str "absent") = PyVal.null) := by
  refine ⟨?_, ?_, ?_, ?_, ?_, ?_⟩
  · cases o with
    | timeout m => rfl
    | launchFailure m => rfl
    | completed rc out err p =>
        simp only [run_script, envContainsKey]
        exact dictContains_ensureAnswer _
  · rintro m rfl; rfl
  · rintro m rfl; rfl
  · rintro rc out err p rfl hempty
    simp [run_script, hempty, ensureAnswer, dictContains, dictGet]
  · rintro rc out err kvs rfl hne hnoanswer
    simp [run_script, envGetD, dictGetD, hne,
      dictGet_ensureAnswer_of_not_contains kvs hnoanswer]
  · rintro rc out err rfl hrc
    by_cases hempty : pyStrip out = ""
    · simp [run_script, hempty, envGetD, dictGetD, ensureAnswer, dictContains, dictGet]
    · simp only [run_script, envGetD, dictGetD]
      rw [if_neg hempty, if_neg hrc]
      simp [ensureAnswer, dictContains, dictGet]

/-- C3 witness: concrete answer-less outcomes all carry `answer = null`. -/
theorem C3_envelope_totality_witness :
    envContainsKey (run_script (ExecOutcome.timeout "t")).response "answer" = true
    ∧ envGetD (run_script (ExecOutcome.timeout "t")).response "answer" (PyVal.str "absent")
        = PyVal.null
    ∧ (run_script (ExecOutcome.completed 0 "  " "" Option.none)).response
        = PyVal.dict [("answer", PyVal.null)]
    ∧ envGetD (run_script (ExecOutcome.completed 0 "\x7b\"status\": \"ok\"\x7d" ""
          (some (PyVal.dict [("status", PyVal.str "ok")])))).response
        "answer" (PyVal.str "absent") = PyVal.null := by
  refine ⟨(C3_envelope_totality (ExecOutcome.timeout "t")).1, ?_, ?_, ?_⟩
  · exact (C3_envelope_totality (ExecOutcome.timeout "t")).2.1 "t" rfl
  · exact (C3_envelope_totality (ExecOutcome.completed 0 "  " "" Option.none)).2.2.2.1
      0 "  " "" Option.none rfl (by decide)
  · exact (C3_envelope_totality (ExecOutcome.completed 0 "\x7b\"status\": \"ok\"\x7d" ""
        (some (PyVal.dict [("status", PyVal.str "ok")])))).2.2.2.2.1
      0 "\x7b\"status\": \"ok\"\x7d" "" [("status", PyVal.str "ok")] rfl (by decide) (by decide)

/-- C4: for every outcome of `run_script` the temporary file backing the
child process is absent from the file system when the call returns. -/
theorem C4_temp_file_cleanup (fs0 : List String) (path : String) (o : ExecOutcome) :
    ((run_script_fs fs0 path o).2).contains path = false := by
  have hfilter : ∀ (fs : List String), (fs.filter (fun q => !(q == path))).contains path = false := by
    intro fs
    induction fs with
    | nil => rfl
    | cons a tl ih =>
        by_cases h : a = path
        · simp [List.filter, h, ih]
        · simp only [List.filter]
          have hb : (a == path) = false := beq_eq_false_iff_ne.mpr h
          simp only [hb, Bool.not_false, List.contains_cons, ih]
          simp [beq_eq_false_iff_ne.mpr (Ne.symm h)]
  have hremove : ∀ (fs : List String), ((removeIfExists fs path).contains path) = false := by
    intro fs
    unfold removeIfExists
    split
    · exact hfilter fs
    · next h => simpa using h
  unfold run_script_fs
  cases o with
  | timeout m => exact hremove _
  | launchFailure m => exact hremove _
  | completed rc out err p => exact hremove _

/-- C6 (amended): when the stripped stdout of a completed run fails to
parse as JSON: if it is non-empty and the exit status is 0 the envelope
is the raw text as `answer`; if it is non-empty and the exit status is
non-zero the envelope has `answer` null and `error` taken from stderr,
falling back to stdout; and if stdout is empty (also unparseable, but
never handed to the parser) the envelope is just `answer` null with no
`error` field. -/
theorem C6_nonjson_stdout_envelope (rc : Int) (out err : String) :
    (pyStrip out ≠ "" → rc = 0 →
      (run_script (ExecOutcome.completed rc out err Option.none)).response
        = PyVal.dict [("answer", PyVal.str (pyStrip out))])
    ∧ (pyStrip out ≠ "" → rc ≠ 0 →
      (run_script (ExecOutcome.completed rc out err Option.none)).response
        = PyVal.dict [("answer", PyVal.null),
            ("error", PyVal.str (if pyStrip err = "" then pyStrip out else pyStrip err))])
    ∧ (pyStrip out = "" →
      (run_script (ExecOutcome.completed rc out err Option.none)).response
        = PyVal.dict [("answer", PyVal.null)]) := by
  refine ⟨?_, ?_, ?_⟩
  · intro hne h0
    simp [run_script, hne, h0, ensureAnswer, dictContains, dictGet]
  · intro hne hrc
    by_cases herr : pyStrip err = ""
    · simp [run_script, hne, hrc, herr, ensureAnswer, dictContains, dictGet]
    · simp [run_script, hne, hrc, herr, ensureAnswer, dictContains, dictGet]
  · intro hempty
    simp [run_script, hempty, ensureAnswer, dictContains, dictGet]

/-- C6 counterexample: a run whose stdout is empty (and therefore not
parseable as JSON) with a failing exit status produces an envelope with
no `error` field at all, against the claim's requirement that every
unparseable-stdout run without a clean exit carries one. -/
theorem C6_empty_stdout_counterexample :
    (run_script (ExecOutcome.completed 1 "" "boom" Option.none)).response
      = PyVal.dict [("answer", PyVal.null)]
    ∧ envContainsKey (run_script (ExecOutcome.completed 1 "" "boom" Option.none)).response
        "error" = false := ⟨rfl, rfl⟩

/-- C6 witness: the two non-empty-stdout branches at concrete inputs. -/
theorem C6_nonjson_stdout_envelope_witness :
    (run_script (ExecOutcome.completed 0 "not json" "" Option.none)).response
      = PyVal.dict [("answer", PyVal.str "not json")]
    ∧ (run_script (ExecOutcome.completed 1 "oops" "err msg" Option.none)).response
      = PyVal.dict [("answer", PyVal.null), ("error", PyVal.str "err msg")] := by
  constructor
  · exact (C6_nonjson_stdout_envelope 0 "not json" "").1 (by decide) rfl
  · exact (C6_nonjson_stdout_envelope 1 "oops" "err msg").2.1 (by decide) (by decide)

/-- Whether a value is a Python string, `isinstance(v, str)`. -/
def pyIsStr : PyVal → Bool
  | .str _ => true
  | _ => false

/-- C1 (amended): when the envelope is not shaped like a server response
and normalisation finds no usable answer (Python `None`), `solve_quiz`
does not abort: it substitutes the empty string and proceeds to the
submission step with it. -/
theorem C1_no_usable_answer_still_submits (kvs : List (String × PyVal)) (su : String)
    (hkeys : (dictContains kvs "correct" && dictContains kvs "url") = false)
    (hnone : normalise_answer_from_envelope kvs = PyVal.null) :
    classify_envelope (PyVal.dict kvs) su
      = EnvelopeAction.submitAnswer (override_submit_url kvs su) (PyVal.str "") := by
  unfold classify_envelope
  simp [hkeys, hnone, pyIsNone, make_answer_json_safe]

/-- C1 witness: the envelope with an explicit null answer is classified
as a submission of the empty string. -/
theorem C1_no_usable_answer_still_submits_witness :
    classify_envelope (PyVal.dict [("answer", PyVal.null)]) "https://h/submit"
      = EnvelopeAction.submitAnswer "https://h/submit" (PyVal.str "") :=
  C1_no_usable_answer_still_submits [("answer", PyVal.null)] "https://h/submit" rfl rfl

/-- Concrete one-iteration session whose script output envelope carries
only a null answer: render, extraction, generation and the POST all
behave; the submission response reports an incorrect answer with no next
URL. -/
def envC1 : SolveEnv :=
  { render := fun _ => some "<p>quiz page</p>"
  , extract := fun _ _ => some ("ctx", "https://h/submit")
  , generate := fun _ _ _ => some "generated code"
  , exec := fun _ => run_script (ExecOutcome.completed 0 "\x7b\"answer\": null\x7d" ""
      (some (PyVal.dict [("answer", PyVal.null)])))
  , post := fun _ _ => some (200, "\x7b\"correct\": false\x7d",
      some (PyVal.dict [("correct", PyVal.bool false)]))
  , time := fun _ => 0 }

/-- C1 counterexample: with the envelope yielding no usable answer (an
explicit null `answer`, no fallback key, no nested answer) the loop does
not abort before the network call: its event trace contains the
submission POST, carrying the empty string as the answer. -/
theorem C1_claimed_abort_counterexample :
    solve_quiz_loop envC1 "user@example.com" "s3cret" 1000 1 0 (some "https://h/q")
      = ([Event.renderCall "https://h/q",
          Event.postCall "https://h/submit"
            [("email", PyVal.str "user@example.com"), ("secret", PyVal.str "s3cret"),
             ("url", PyVal.str "https://h/q"), ("answer", PyVal.str "")]],
         Final.done) := rfl

/-- Whether an event is a submission POST. -/
def eventIsPost : Event → Bool
  | Event.postCall _ _ => true
  | _ => false

/-- In a session whose every script run returns a grading-shaped
envelope (both a `correct` and a `url` key), the loop never performs a
submission POST: all its events are renders. -/
theorem solve_quiz_loop_selfsubmit_no_post (env : SolveEnv) (email secret : String)
    (dl : Int)
    (hexec : ∀ code, envContainsKey (env.exec code).response "correct" = true
        ∧ envContainsKey (env.exec code).response "url" = true) :
    ∀ fuel k cur, ((solve_quiz_loop env email secret dl fuel k cur).1.all
        (fun e => !eventIsPost e)) = true := by
  intro fuel
  induction fuel with
  | zero => intro k cur; cases cur <;> rfl
  | succ n ih =>
      intro k cur
      cases cur with
      | none => rfl
      | some url =>
          rw [solve_quiz_loop]
          by_cases hu : url = ""
          · simp [hu]
          · rw [if_neg hu]
            by_cases ht : ¬ (env.time k < dl - 30)
            · rw [if_pos ht]; rfl
            · rw [if_neg ht]
              cases hr : env.render url with
              | none => dsimp only; simp [eventIsPost]
              | some html =>
                  dsimp only
                  cases he : env.extract html url with
                  | none => dsimp only; simp [eventIsPost]
                  | some pair =>
                      obtain ⟨ctx, su0⟩ := pair
                      dsimp only
                      cases hg : env.generate ctx url su0 with
                      | none => dsimp only; simp [eventIsPost]
                      | some code =>
                          dsimp only
                          obtain ⟨hc, hu2⟩ := hexec code
                          cases hresp : (env.exec code).response with
                          | dict kvs =>
                              have hclass : classify_envelope (PyVal.dict kvs) su0
                                  = EnvelopeAction.selfSubmitted kvs := by
                                rw [hresp] at hc hu2
                                simp only [envContainsKey] at hc hu2
                                unfold classify_envelope
                                simp [hc, hu2]
                              rw [hclass]
                              dsimp only
                              cases hd : handle_submission kvs (env.time (k + 1)) dl with
                              | stop => simp [eventIsPost]
                              | continueWith next_url =>
                                  dsimp only
                                  rw [List.all_append]
                                  have h1 : ([Event.renderCall url].all
                                      (fun e => !eventIsPost e)) = true := rfl
                                  rw [h1, Bool.true_and]
                                  exact ih _ _
                          | null => rw [hresp] at hc; simp [envContainsKey] at hc
                          | bool b => rw [hresp] at hc; simp [envContainsKey] at hc
                          | num q => rw [hresp] at hc; simp [envContainsKey] at hc
                          | str s => rw [hresp] at hc; simp [envContainsKey] at hc
                          | bytes bs => rw [hresp] at hc; simp [envContainsKey] at hc
                          | list xs => rw [hresp] at hc; simp [envContainsKey] at hc

/-- C5: an envelope carrying both a `correct` and a `url` key is taken
directly as the submission outcome of the iteration (the classification
yields `selfSubmitted`, not a `submitAnswer` action, so the answer
normalisation of step 6 is skipped); and in a session whose every
envelope is grading-shaped, the loop performs no submission POST at
all. -/
theorem C5_self_submitted_envelope :
    (∀ (kvs : List (String × PyVal)) (su : String),
        dictContains kvs "correct" = true → dictContains kvs "url" = true →
        classify_envelope (PyVal.dict kvs) su = EnvelopeAction.selfSubmitted kvs)
    ∧ (∀ (env : SolveEnv) (email secret : String) (dl : Int),
        (∀ code, envContainsKey (env.exec code).response "correct" = true
            ∧ envContainsKey (env.exec code).response "url" = true) →
        ∀ fuel k cur, ((solve_quiz_loop env email secret dl fuel k cur).1.all
            (fun e => !eventIsPost e)) = true) := by
  constructor
  · intro kvs su h1 h2
    unfold classify_envelope
    simp [h1, h2]
  · exact solve_quiz_loop_selfsubmit_no_post

/-- Session whose script output is always the grading-shaped envelope
with `correct` true and a null `url`. -/
def envC5 : SolveEnv :=
  { render := fun _ => some "<p>quiz page</p>"
  , extract := fun _ _ => some ("ctx", "https://h/submit")
  , generate := fun _ _ _ => some "generated code"
  , exec := fun _ => run_script (ExecOutcome.completed 0
      "\x7b\"correct\": true, \"url\": null\x7d" ""
      (some (PyVal.dict [("correct", PyVal.bool true), ("url", PyVal.null)])))
  , post := fun _ _ => Option.none
  , time := fun _ => 0 }

/-- C5 witness: a grading-shaped envelope is taken as the submission,
and the concrete self-submitting session makes no POST. -/
theorem C5_self_submitted_envelope_witness :
    classify_envelope
        (PyVal.dict [("correct", PyVal.bool true), ("url", PyVal.str "https://n/x")])
        "https://h/submit"
      = EnvelopeAction.selfSubmitted
          [("correct", PyVal.bool true), ("url", PyVal.str "https://n/x")]
    ∧ ((solve_quiz_loop envC5 "user@example.com" "s3cret" 1000 2 0
          (some "https://h/q")).1.all (fun e => !eventIsPost e)) = true :=
  ⟨C5_self_submitted_envelope.1 _ _ rfl rfl,
   C5_self_submitted_envelope.2 envC5 "user@example.com" "s3cret" 1000
     (fun _ => ⟨rfl, rfl⟩) 2 0 (some "https://h/q")⟩

/-- C10: `make_answer_json_safe` is idempotent, and a mapping or a
sequence normalises to a string (its serialization; the function being
deterministic, the same mapping serialises to the same string on every
application). -/
theorem C10_normalisation_idempotent (v : PyVal) :
    make_answer_json_safe (make_answer_json_safe v) = make_answer_json_safe v
    ∧ (∀ kvs, v = PyVal.dict kvs → pyIsStr (make_answer_json_safe v) = true)
    ∧ (∀ xs, v = PyVal.list xs → pyIsStr (make_answer_json_safe v) = true) := by
  refine ⟨?_, ?_, ?_⟩
  · cases v with
    | dict kvs =>
        cases h : jsonDumps (PyVal.dict kvs) with
        | some s => simp [make_answer_json_safe, h]
        | none => simp [make_answer_json_safe, h]
    | list xs =>
        cases h : jsonDumps (PyVal.list xs) with
        | some s => simp [make_answer_json_safe, h]
        | none => simp [make_answer_json_safe, h]
    | bytes bs => rfl
    | null => rfl
    | bool b => rfl
    | num q => rfl
    | str s => rfl
  · rintro kvs rfl
    cases h : jsonDumps (PyVal.dict kvs) with
    | some s => simp [make_answer_json_safe, h, pyIsStr]
    | none => simp [make_answer_json_safe, h, pyIsStr]
  · rintro xs rfl
    cases h : jsonDumps (PyVal.list xs) with
    | some s => simp [make_answer_json_safe, h, pyIsStr]
    | none => simp [make_answer_json_safe, h, pyIsStr]

/-- C10 witness: a concrete mapping normalises to its compact JSON
string, and renormalising leaves it unchanged. -/
theorem C10_normalisation_idempotent_witness :
    pyIsStr (make_answer_json_safe (PyVal.dict [("a", PyVal.num 1)])) = true
    ∧ make_answer_json_safe (make_answer_json_safe (PyVal.dict [("a", PyVal.num 1)]))
        = make_answer_json_safe (PyVal.dict [("a", PyVal.num 1)]) :=
  ⟨(C10_normalisation_idempotent (PyVal.dict [("a", PyVal.num 1)])).2.1 _ rfl,
   (C10_normalisation_idempotent (PyVal.dict [("a", PyVal.num 1)])).1⟩

/-- C7: if no candidate URL survives cleaning, the submit URL is
synthesized from the page URL's own scheme and authority; and if the
chosen candidate has an empty or root-only path, the submit URL is
rewritten onto the candidate's authority with path `/submit`. -/
theorem C7_submit_url_fallback (html quiz_url : String) :
    (cleaned_urls html quiz_url = [] →
      extract_submit_url html quiz_url
        = (urlparse_model quiz_url).scheme ++ "://"
            ++ (urlparse_model quiz_url).netloc ++ "/submit")
    ∧ (∀ cand, chosen_candidate html quiz_url = some cand →
        ((urlparse_model cand).path = "" ∨ (urlparse_model cand).path = "/") →
        extract_submit_url html quiz_url
          = (urlparse_model cand).scheme ++ "://"
              ++ (urlparse_model cand).netloc ++ "/submit") := by
  constructor
  · intro h
    unfold extract_submit_url chosen_candidate
    rw [h]
  · intro cand h hpath
    unfold extract_submit_url
    rw [h]
    rcases hpath with h1 | h1 <;> simp [h1]

/-- C7 witness: a page with no URLs at all falls back to the page URL's
own host, and a bare-domain candidate is rewritten to `/submit` on its
host. -/
theorem C7_submit_url_fallback_witness :
    extract_submit_url "<p>hello</p>" "https://example.com/quiz"
      = "https://example.com/submit"
    ∧ extract_submit_url "<a href=\"https://other.com\">x</a>" "https://example.com/quiz"
      = "https://other.com/submit" := by
  constructor
  · exact (C7_submit_url_fallback "<p>hello</p>" "https://example.com/quiz").1 rfl
  · exact (C7_submit_url_fallback "<a href=\"https://other.com\">x</a>"
      "https://example.com/quiz").2 "https://other.com" rfl (Or.inl rfl)

/-- C8: after a submission not marked correct, the loop follows a
non-empty string `url` exactly when the current time is still more than
sixty seconds before the deadline, and stops otherwise. -/
theorem C8_not_correct_decision (submission : List (String × PyVal)) (now deadline_ts : Int)
    (hcorrect : pyIsTrueIdent (dictGetD submission "correct" PyVal.null) = false) :
    (∀ s, dictGetD submission "url" PyVal.null = PyVal.str s → s ≠ "" →
        now < deadline_ts - 60 →
        handle_submission submission now deadline_ts = LoopDecision.continueWith s)
    ∧ ((∀ s, dictGetD submission "url" PyVal.null = PyVal.str s →
          s = "" ∨ deadline_ts - 60 ≤ now) →
        handle_submission submission now deadline_ts = LoopDecision.stop) := by
  constructor
  · intro s hs hne hlt
    unfold handle_submission
    simp [hcorrect, hs, hne, hlt]
  · intro hall
    unfold handle_submission
    simp only [hcorrect, Bool.false_eq_true, if_false]
    cases hurl : dictGetD submission "url" PyVal.null with
    | str s =>
        dsimp only
        rcases hall s hurl with h | h
        · rw [if_neg]
          rintro ⟨h1, _⟩
          exact h1 h
        · rw [if_neg]
          rintro ⟨_, h2⟩
          omega
    | null => rfl
    | bool b => rfl
    | num q => rfl
    | bytes bs => rfl
    | list xs => rfl
    | dict kvs => rfl

/-- C8 witness: an incorrect submission with a next URL is followed with
58 minutes left, and stopped 10 seconds before the deadline. -/
theorem C8_not_correct_decision_witness :
    handle_submission [("correct", PyVal.bool false), ("url", PyVal.str "https://x/y")]
        120 3600 = LoopDecision.continueWith "https://x/y"
    ∧ handle_submission [("correct", PyVal.bool false), ("url", PyVal.str "https://x/y")]
        3590 3600 = LoopDecision.stop := by
  constructor
  · exact (C8_not_correct_decision
      [("correct", PyVal.bool false), ("url", PyVal.str "https://x/y")] 120 3600 rfl).1
      "https://x/y" rfl (by decide) (by decide)
  · exact (C8_not_correct_decision
      [("correct", PyVal.bool false), ("url", PyVal.str "https://x/y")] 3590 3600 rfl).2
      (fun s _ => Or.inr (by decide))

/-- C9: a session started when the current time is already past the
deadline's 30-second safety margin performs no iteration: the loop does
no render and no POST (its event trace is empty) and ends in the normal
`done` state. -/
theorem C9_past_deadline_no_iterations (env : SolveEnv) (email secret : String)
    (deadline_ts : Int) (url : String) (fuel : Nat)
    (h : deadline_ts - 30 ≤ env.time 0) :
    solve_quiz_loop env email secret deadline_ts (fuel + 1) 0 (some url)
      = ([], Final.done) := by
  unfold solve_quiz_loop
  by_cases hu : url = ""
  · rw [if_pos hu]
  · rw [if_neg hu, if_pos]
    omega

/-- Session environment whose clock reads 1000 against a deadline of
100: the very first budget check fails. -/
def envC9 : SolveEnv :=
  { render := fun _ => Option.none
  , extract := fun _ _ => Option.none
  , generate := fun _ _ _ => Option.none
  , exec := fun _ => run_script (ExecOutcome.timeout "")
  , post := fun _ _ => Option.none
  , time := fun _ => 1000 }

/-- C9 witness: the concrete expired session does nothing and is done. -/
theorem C9_past_deadline_no_iterations_witness :
    solve_quiz_loop envC9 "user@example.com" "s3cret" 100 1 0 (some "https://q.example/1")
      = ([], Final.done) :=
  C9_past_deadline_no_iterations envC9 "user@example.com" "s3cret" 100
    "https://q.example/1" 0 (by decide)
